import Mathlib

/-!
Verification of the dazdaz/gemini repository: a shallow embedding of the
parts of the three applications that the specified properties concern.

Part 1 embeds the single-flight background-task guard of the live proxy
server (livewire-daz/server/core/tool_handler.py and
livewire-daz/server/computer_agent/runner.py).

Part 2 embeds the live transcription-and-translation app
(chirp2-translator/app.py): the translation adapter, the per-connection
session record with its audio buffers, and the text accumulation of the
streaming worker.

Part 3 embeds the transcription orchestrator
(gemini-3-transcribe/app.py and gemini-3-transcribe/gemini_transcribe_cli.py):
the price table, cost estimation, the inline-versus-upload decision, the
output-token recording and the model allow-list substitution.

External SDK calls are abstracted as explicit parameters (oracles) or as
inductive outcome types; machine floats of the cost arithmetic are modelled
exactly over the rationals.
-/

/-! Part 1: livewire-daz single-flight background-task guard. -/

/-- Result dictionary returned by run_computer_agent_task
(computer_agent/runner.py): the function always returns a dict with both a
status key and a summary key, so the dict is never empty (never falsy). -/
structure AgentResult where
  status : String
  summary : String
deriving DecidableEq, Repr

/-- Behaviour of the opaque agent run inside run_computer_agent_task: the
agent loop either completes, leaving an optional final reasoning string, or
raises an exception carrying a message. -/
inductive RunnerOutcome where
  | completes (finalReasoning : Option String)
  | raises (msg : String)
deriving DecidableEq, Repr

/-- Embedding of run_computer_agent_task (runner.py lines 26-84).  The body
catches every exception: on completion it returns status "success" with the
agent's final reasoning (or the fixed default text when the agent produced
none), and on an exception it returns status "error" with the message.  The
function never raises and never returns a falsy value. -/
def run_computer_agent_task : RunnerOutcome → AgentResult
  | RunnerOutcome.completes (some r) => { status := "success", summary := r }
  | RunnerOutcome.completes none =>
      { status := "success",
        summary := "Task completed, but no final summary was generated." }
  | RunnerOutcome.raises m => { status := "error", summary := m }

/-- Handle to an asyncio task as seen by the guard: an identity and whether
its done() method reports completion. -/
structure AsyncTask where
  id : Nat
  done : Bool
deriving DecidableEq, Repr

/-- The three terminating paths of the awaited coroutine inside
run_and_log_task (tool_handler.py lines 34-59): a normal return carrying the
runner's result dictionary, an asyncio cancellation, or any other
exception. -/
inductive TaskOutcome where
  | normal (result : AgentResult)
  | cancelled
  | failed (msg : String)
deriving DecidableEq, Repr

/-- Observable effect of one run of the completion handler: the turns it
forwards to the owning genai_session, and the value of the process-wide
background_task slot after the finally block has run. -/
structure HandlerEffect where
  messagesSent : List String
  slotAfter : Option AsyncTask
deriving DecidableEq, Repr

/-- Embedding of run_and_log_task (tool_handler.py lines 34-59).  On a normal
return it forwards the result's summary only when the result's status is
"success"; on CancelledError it forwards a fixed cancellation message; on any
other exception it forwards a fixed error message; the finally block sets the
background_task slot to None on every one of these paths. -/
def run_and_log_task : TaskOutcome → HandlerEffect
  | TaskOutcome.normal r =>
      { messagesSent := if r.status = "success" then [r.summary] else [],
        slotAfter := none }
  | TaskOutcome.cancelled =>
      { messagesSent := ["The task has been cancelled."], slotAfter := none }
  | TaskOutcome.failed _ =>
      { messagesSent := ["An error occurred during the task."], slotAfter := none }

/-- Dictionary returned by execute_tool for the computer-task branches: a
status/summary pair on the handled paths or an error entry. -/
structure ToolResult where
  status : Option String
  summary : Option String
  error : Option String
deriving DecidableEq, Repr

/-- Python truthiness test `not query` on params.get("query"): falsy when the
key is missing or the string is empty. -/
def queryFalsy : Option String → Bool
  | none => true
  | some s => s.isEmpty

/-- The guard's busy test `background_task and not background_task.done()`. -/
def slotBusy : Option AsyncTask → Bool
  | none => false
  | some t => !t.done

/-- Embedding of the execute_computer_task branch of execute_tool
(tool_handler.py lines 74-90), written state-passing on the process-wide
slot: the pair holds the returned dictionary and the slot after the call.
freshId identifies the task asyncio.create_task would create; a newly
created task is not done. -/
def execute_computer_task (slot : Option AsyncTask) (query : Option String)
    (hasSession : Bool) (freshId : Nat) : ToolResult × Option AsyncTask :=
  if slotBusy slot then
    ({ status := some "already_running", summary := some "A task is in progress.",
       error := none }, slot)
  else if queryFalsy query then
    ({ status := none, summary := none, error := some "Missing query" }, slot)
  else if !hasSession then
    ({ status := none, summary := none, error := some "Missing session" }, slot)
  else
    ({ status := some "started", summary := some "Task has started.", error := none },
     some { id := freshId, done := false })

/-! Part 2: chirp2-translator live transcription and translation. -/

/-- Whitespace characters removed by Python str.strip() in the ASCII range. -/
def pyIsSpace (c : Char) : Bool :=
  c = ' ' || c = '\t' || c = '\n' || c = '\r' || c = '\x0b' || c = '\x0c'

/-- Embedding of Python str.strip(): drop leading and trailing whitespace. -/
def pyStrip (s : String) : String :=
  String.mk (((s.data.dropWhile pyIsSpace).reverse.dropWhile pyIsSpace).reverse)

/-- Outcome of one GeminiTranslator.translate call: the returned string and
whether the external generate_content call was made. -/
structure TranslateOutcome where
  result : String
  apiCalled : Bool
deriving DecidableEq, Repr

/-- Embedding of GeminiTranslator.translate (chirp2-translator/app.py lines
158-169).  The external model call is abstracted as a function from the
prompt to either a response text or an exception message; a response text is
stripped, an exception is converted into the inline placeholder string. -/
def GeminiTranslator_translate (api : String → Except String String)
    (text target_language : String) : TranslateOutcome :=
  if pyStrip text = "" then { result := "", apiCalled := false }
  else
    match api ("Translate the following text to " ++ target_language ++
        ". Only return the translation, nothing else:\n\n" ++ text) with
    | Except.ok r => { result := pyStrip r, apiCalled := true }
    | Except.error e =>
        { result := "[Translation error: " ++ e ++ "]", apiCalled := true }

/-- The per-connection session record of chirp2-translator/app.py restricted
to the fields the handlers below read or write.  Audio byte-chunks are
identified by natural numbers. -/
structure ChirpSession where
  active : Bool
  streamActive : Bool
  audioQueue : List Nat
  audioChunks : List Nat
  pendingAudio : List Nat
  originalText : String
  translatedText : String
deriving DecidableEq, Repr

/-- Session record created by handle_connect (app.py lines 287-301). -/
def connectSession : ChirpSession :=
  { active := false, streamActive := false, audioQueue := [], audioChunks := [],
    pendingAudio := [], originalText := "", translatedText := "" }

/-- Embedding of handle_audio_data (app.py lines 375-394): record the chunk
in audio_chunks, then put it on the live queue when stream_active is set and
append it to the pending buffer otherwise. -/
def handle_audio_data (s : ChirpSession) (chunk : Nat) : ChirpSession :=
  let s1 := { s with audioChunks := s.audioChunks ++ [chunk] }
  if s1.streamActive then { s1 with audioQueue := s1.audioQueue ++ [chunk] }
  else { s1 with pendingAudio := s1.pendingAudio ++ [chunk] }

/-- Embedding of handle_start_session (app.py lines 324-368): the dict update
replaces the queue with a fresh empty one, clears the recorded chunks, both
accumulated texts and the pending buffer, and sets stream_active; the flush
loop that follows moves whatever the pending buffer then holds into the
queue and finally empties the pending buffer. -/
def handle_start_session (s : ChirpSession) : ChirpSession :=
  let s1 := { s with active := true, streamActive := true, audioQueue := [],
                     audioChunks := [], originalText := "", translatedText := "",
                     pendingAudio := [] }
  { s1 with audioQueue := s1.audioQueue ++ s1.pendingAudio, pendingAudio := [] }

/-- One streaming recognition result as consumed by streaming_transcribe:
whether result.alternatives is non-empty, the top alternative's transcript,
and the is_final flag. -/
structure RecResult where
  hasAlternatives : Bool
  transcript : String
  isFinal : Bool
deriving DecidableEq, Repr

/-- Embedding of the per-result body of the worker loop in
streaming_transcribe (app.py lines 453-496), restricted to the session text
fields: a result without alternatives is skipped, an interim result only
emits a notification, and a final result appends the transcript and its
translation (each followed by one space) to the accumulated texts.  The
translation call is abstracted as tr. -/
def processResult (tr : String → String) (s : ChirpSession) (r : RecResult) :
    ChirpSession :=
  if !r.hasAlternatives then s
  else if r.isFinal then
    { s with originalText := s.originalText ++ (r.transcript ++ " "),
             translatedText := s.translatedText ++ (tr r.transcript ++ " ") }
  else s

/-- The worker of streaming_transcribe processing a sequence of recognition
results in arrival order, folded over the session state. -/
def streaming_transcribe (tr : String → String) (s : ChirpSession)
    (results : List RecResult) : ChirpSession :=
  results.foldl (processResult tr) s

/-- The finalized segments of a result sequence, in arrival order. -/
def finalTranscripts (results : List RecResult) : List String :=
  (results.filter (fun r => r.hasAlternatives && r.isFinal)).map
    (fun r => r.transcript)

/-- Concatenation of a list of text segments. -/
def concatSegs : List String → String
  | [] => ""
  | t :: ts => t ++ concatSegs ts

/-! Part 3: gemini-3-transcribe transcription orchestrator. -/

/-- One static entry of the per-model price table AVAILABLE_MODELS
(gemini_transcribe_cli.py lines 28-50). -/
structure ModelPricing where
  name : String
  max_output_tokens : Nat
  price_input_per_1k : ℚ
  price_output_per_1k : ℚ
  price_audio_per_second : ℚ
deriving DecidableEq, Repr

/-- Price entry of the gemini-2.5-flash model. -/
def gemini25FlashPricing : ModelPricing :=
  { name := "Gemini 2.5 Flash", max_output_tokens := 65536,
    price_input_per_1k := 0.000075, price_output_per_1k := 0.0003,
    price_audio_per_second := 0.000015 }

/-- Price entry of the gemini-2.5-pro model. -/
def gemini25ProPricing : ModelPricing :=
  { name := "Gemini 2.5 Pro", max_output_tokens := 65536,
    price_input_per_1k := 0.00125, price_output_per_1k := 0.005,
    price_audio_per_second := 0.00025 }

/-- Price entry of the gemini-3-pro-preview model. -/
def gemini3ProPreviewPricing : ModelPricing :=
  { name := "Gemini 3 Pro Preview", max_output_tokens := 65536,
    price_input_per_1k := 0.00025, price_output_per_1k := 0.0005,
    price_audio_per_second := 0.000625 }

/-- The fixed model allow-list AVAILABLE_MODELS as a lookup function. -/
def AVAILABLE_MODELS : String → Option ModelPricing := fun model_name =>
  if model_name = "gemini-2.5-flash" then some gemini25FlashPricing
  else if model_name = "gemini-2.5-pro" then some gemini25ProPricing
  else if model_name = "gemini-3-pro-preview" then some gemini3ProPreviewPricing
  else none

/-- The default (cheapest) model, gemini_transcribe_cli.py line 53. -/
def DEFAULT_MODEL : String := "gemini-2.5-flash"

/-- The dictionary returned by estimate_cost (gemini_transcribe_cli.py lines
79-88). -/
structure CostRecord where
  model : String
  input_tokens : Nat
  output_tokens : Nat
  audio_seconds : ℚ
  text_input_cost : ℚ
  output_cost : ℚ
  audio_cost : ℚ
  total_cost : ℚ
deriving DecidableEq, Repr

/-- Embedding of estimate_cost (gemini_transcribe_cli.py lines 70-88):
AVAILABLE_MODELS.get(model_name, AVAILABLE_MODELS[DEFAULT_MODEL]) selects the
price entry, and the three cost components and their sum are computed from
the counters.  Python float arithmetic is modelled exactly over ℚ. -/
def estimate_cost (model_name : String) (input_tokens output_tokens : Nat)
    (audio_seconds : ℚ) : CostRecord :=
  let model_info := (AVAILABLE_MODELS model_name).getD gemini25FlashPricing
  let text_input_cost := ((input_tokens : ℚ) / 1000) * model_info.price_input_per_1k
  let output_cost := ((output_tokens : ℚ) / 1000) * model_info.price_output_per_1k
  let audio_cost := audio_seconds * model_info.price_audio_per_second
  { model := model_name, input_tokens := input_tokens,
    output_tokens := output_tokens, audio_seconds := audio_seconds,
    text_input_cost := text_input_cost, output_cost := output_cost,
    audio_cost := audio_cost,
    total_cost := text_input_cost + output_cost + audio_cost }

/-- The web app's inline limit in MB, app.py line 36. -/
def WEB_INLINE_LIMIT_MB : ℚ := 20

/-- The CLI inline limit in MB, gemini_transcribe_cli.py line 25. -/
def MAX_FILE_SIZE_MB : ℚ := 100

/-- The two transfer strategies for delivering the media payload. -/
inductive Transfer where
  | inline
  | upload
deriving DecidableEq, Repr

/-- Embedding of the web orchestrator's transfer choice (app.py lines
197-206): inline when file_size_mb is at most the web inline limit, upload
otherwise.  The decision reads only the size. -/
def webTransferDecision (file_size_mb : ℚ) : Transfer :=
  if file_size_mb ≤ WEB_INLINE_LIMIT_MB then Transfer.inline else Transfer.upload

/-- Embedding of the CLI transfer choice (gemini_transcribe_cli.py lines
515-524): `args.upload or (file_size_mb > MAX_FILE_SIZE_MB and not
args.inline)` selects the upload path, inline otherwise.  The decision reads
only the size and the two flags. -/
def cliTransferDecision (upload_flag inline_flag : Bool) (file_size_mb : ℚ) :
    Transfer :=
  if upload_flag = true ∨ (MAX_FILE_SIZE_MB < file_size_mb ∧ inline_flag = false) then
    Transfer.upload
  else Transfer.inline

/-- Behaviour of reading response.usage_metadata in AudioTranscriber.transcribe
and AudioTranscriber.summarize: the attribute is present and yields a
candidates_token_count (the getattr default 0 is folded into this case), the
attribute is absent (hasattr is false), or reading it raises an exception. -/
inductive UsageMeta where
  | present (candidates_token_count : Nat)
  | absent
  | raises
deriving DecidableEq, Repr

/-- Embedding of the output-token recording of AudioTranscriber.transcribe
(gemini_transcribe_cli.py lines 317-326) and AudioTranscriber.summarize
(lines 362-370): output_tokens starts at 0; when hasattr finds usage_metadata
it is set from candidates_token_count; when hasattr is false the body of the
if is skipped and output_tokens remains 0; only when reading the metadata
raises does the except branch estimate len(response.text) // 4. -/
def recordedOutputTokens (meta : UsageMeta) (response_text_len : Nat) : Nat :=
  match meta with
  | UsageMeta.present t => t
  | UsageMeta.absent => 0
  | UsageMeta.raises => response_text_len / 4

/-- The last_usage record stored by AudioTranscriber.transcribe (lines
328-334). -/
def transcribe_last_usage (model_name : String) (input_tokens : Nat)
    (meta : UsageMeta) (response_text_len : Nat)
    (audio_duration_seconds : ℚ) : CostRecord :=
  estimate_cost model_name input_tokens
    (recordedOutputTokens meta response_text_len) audio_duration_seconds

/-- The usage record returned by AudioTranscriber.summarize (line 373): the
summary call carries no audio component. -/
def summarize_usage (model_name : String) (input_tokens : Nat)
    (meta : UsageMeta) (response_text_len : Nat) : CostRecord :=
  estimate_cost model_name input_tokens
    (recordedOutputTokens meta response_text_len) 0

/-- Total-cost accumulation of the web transcribe handler (app.py lines 157,
215-226): the transcription call's total plus, when a summary was requested,
the summary call's total. -/
def transcribe_request_total_cost (transcription_usage : CostRecord)
    (summary_usage : Option CostRecord) : ℚ :=
  transcription_usage.total_cost +
    (match summary_usage with
     | some u => u.total_cost
     | none => 0)

/-- Model substitution of the web transcribe handler (app.py lines 128-132):
data.get('model', DEFAULT_MODEL) followed by silent replacement of a name
outside the allow-list; the result is the model_used value the response
reports. -/
def transcribe_model_used (requested : Option String) : String :=
  let model_name := requested.getD DEFAULT_MODEL
  if (AVAILABLE_MODELS model_name).isSome then model_name else DEFAULT_MODEL

/-- Model substitution in AudioTranscriber.__init__ (gemini_transcribe_cli.py
lines 150-163): an unknown name is replaced by DEFAULT_MODEL with a warning,
never an error. -/
def transcriberInitModel (model_name : String) : String :=
  if (AVAILABLE_MODELS model_name).isSome then model_name else DEFAULT_MODEL

/-! Helper lemmas shared by the claim theorems. -/

/-- Stripping a string all of whose characters are whitespace yields the
empty string. -/
theorem pyStrip_of_all_space {s : String} (h : ∀ c ∈ s.data, pyIsSpace c = true) :
    pyStrip s = "" := by
  unfold pyStrip
  have h1 : s.data.dropWhile pyIsSpace = [] := by
    rw [List.dropWhile_eq_nil_iff]
    exact fun c hc => h c hc
  rw [h1]
  rfl

/-- The accumulated texts after the worker processes a result sequence equal
the texts before, extended by the space-terminated finalized segments in
arrival order (respectively their translations). -/
theorem streaming_transcribe_texts (tr : String → String) (results : List RecResult) :
    ∀ s : ChirpSession,
      (streaming_transcribe tr s results).originalText
          = s.originalText ++ concatSegs ((finalTranscripts results).map (fun t => t ++ " "))
      ∧ (streaming_transcribe tr s results).translatedText
          = s.translatedText ++ concatSegs ((finalTranscripts results).map (fun t => tr t ++ " ")) := by
  induction results with
  | nil =>
      intro s
      constructor
      · simp [streaming_transcribe, finalTranscripts, concatSegs, String.append_empty]
      · simp [streaming_transcribe, finalTranscripts, concatSegs, String.append_empty]
  | cons r rs ih =>
      intro s
      have hstep : streaming_transcribe tr s (r :: rs)
          = streaming_transcribe tr (processResult tr s r) rs := rfl
      rcases ih (processResult tr s r) with ⟨ho, ht⟩
      by_cases ha : r.hasAlternatives = true
      · by_cases hf : r.isFinal = true
        · have hfin : finalTranscripts (r :: rs) = r.transcript :: finalTranscripts rs := by
            simp [finalTranscripts, List.filter_cons, ha, hf]
          have hpo : (processResult tr s r).originalText
              = s.originalText ++ (r.transcript ++ " ") := by
            simp [processResult, ha, hf]
          have hpt : (processResult tr s r).translatedText
              = s.translatedText ++ (tr r.transcript ++ " ") := by
            simp [processResult, ha, hf]
          constructor
          · rw [hstep, ho, hpo, hfin]
            simp [concatSegs, String.append_assoc]
          · rw [hstep, ht, hpt, hfin]
            simp [concatSegs, String.append_assoc]
        · have hfin : finalTranscripts (r :: rs) = finalTranscripts rs := by
            simp [finalTranscripts, List.filter_cons, ha, hf]
          have hp : processResult tr s r = s := by
            simp [processResult, ha, hf]
          constructor
          · rw [hstep, ho, hp, hfin]
          · rw [hstep, ht, hp, hfin]
      · have hfin : finalTranscripts (r :: rs) = finalTranscripts rs := by
          simp [finalTranscripts, List.filter_cons, ha]
        have hp : processResult tr s r = s := by
          simp [processResult, ha]
        constructor
        · rw [hstep, ho, hp, hfin]
        · rw [hstep, ht, hp, hfin]

/-! Claim theorems. -/

/-- Claim C1: whenever an execute_computer_task start request arrives while a
non-completed task is in the process-wide slot, the guard returns the
already_running rejection, creates no new task, and leaves the existing task
and the slot unchanged, so at most one non-completed task handle ever
occupies the slot. -/
theorem guard_rejects_start_while_running (slot : Option AsyncTask) (t : AsyncTask)
    (query : Option String) (hasSession : Bool) (freshId : Nat)
    (hslot : slot = some t) (hdone : t.done = false) :
    execute_computer_task slot query hasSession freshId
      = ({ status := some "already_running", summary := some "A task is in progress.",
           error := none }, slot) := by
  subst hslot
  simp [execute_computer_task, slotBusy, hdone]

/-- Claim C1 witness: a concrete start request against a slot holding a
non-completed task is rejected and the slot keeps the same task. -/
theorem guard_rejects_start_while_running_witness :
    execute_computer_task (some { id := 0, done := false }) (some "check the weather")
        true 1
      = ({ status := some "already_running", summary := some "A task is in progress.",
           error := none }, some { id := 0, done := false }) :=
  guard_rejects_start_while_running (some { id := 0, done := false })
    { id := 0, done := false } (some "check the weather") true 1 rfl rfl

/-- Claim C2: the completion handler clears the background-task slot (sets it
back to None) on every terminating path of the awaited task - normal return,
cancellation, and exception - so the guard cannot stay in the Running state
after its task has terminated. -/
theorem completion_handler_always_clears_slot :
    ∀ outcome : TaskOutcome, (run_and_log_task outcome).slotAfter = none := by
  intro outcome
  cases outcome <;> rfl

/-- Claim C3 counterexample: when the underlying task ends in the error
outcome - the runner catches its own exception and returns normally with
status "error" - the completion handler forwards no turn at all to the owning
conversation, not exactly one as the claim states. -/
theorem completion_handler_silent_on_error_outcome :
    ¬ ((run_and_log_task (TaskOutcome.normal
        (run_computer_agent_task (RunnerOutcome.raises "browser crashed")))).messagesSent.length
      = 1) := by
  decide

/-- Claim C3 (amended): the completion handler forwards exactly one turn on
cancellation and exactly one turn on an exception; on a normal return it
forwards exactly one turn (the result's summary) when the result's status is
"success" and forwards nothing otherwise - in particular nothing when the
runner reports an agent failure as a normal return with status "error". -/
theorem completion_handler_forwarding_policy :
    ∀ outcome : TaskOutcome,
      (run_and_log_task outcome).messagesSent.length
        = (match outcome with
           | TaskOutcome.normal r => if r.status = "success" then 1 else 0
           | TaskOutcome.cancelled => 1
           | TaskOutcome.failed _ => 1) := by
  intro outcome
  cases outcome with
  | normal r =>
      by_cases h : r.status = "success" <;> simp [run_and_log_task, h]
  | cancelled => rfl
  | failed m => rfl

/-- Claim C4: the inline-versus-upload decision is a pure function of the
file size and the explicit override flags only; without overrides a size at
most the threshold chooses inline and a size above it chooses upload (web
threshold 20 MB with no overrides, CLI threshold 100 MB), and the CLI
override flags force the other path. -/
theorem transfer_decision_pure_threshold_policy : ∀ size_mb : ℚ,
    ((size_mb ≤ WEB_INLINE_LIMIT_MB → webTransferDecision size_mb = Transfer.inline)
      ∧ (WEB_INLINE_LIMIT_MB < size_mb → webTransferDecision size_mb = Transfer.upload))
    ∧ ((size_mb ≤ MAX_FILE_SIZE_MB →
          cliTransferDecision false false size_mb = Transfer.inline)
      ∧ (MAX_FILE_SIZE_MB < size_mb →
          cliTransferDecision false false size_mb = Transfer.upload))
    ∧ (∀ inline_flag : Bool, cliTransferDecision true inline_flag size_mb = Transfer.upload)
    ∧ (cliTransferDecision false true size_mb = Transfer.inline) := by
  intro size_mb
  refine ⟨⟨fun h => ?_, fun h => ?_⟩, ⟨fun h => ?_, fun h => ?_⟩, fun inline_flag => ?_, ?_⟩
  · simp [webTransferDecision, h]
  · simp [webTransferDecision, not_le.mpr h]
  · have hc : ¬ ((false : Bool) = true ∨ (MAX_FILE_SIZE_MB < size_mb ∧ (false : Bool) = false)) := by
      rintro (h1 | ⟨h2, _⟩)
      · exact Bool.false_ne_true h1
      · exact absurd h2 (not_lt.mpr h)
    unfold cliTransferDecision
    rw [if_neg hc]
  · unfold cliTransferDecision
    rw [if_pos (Or.inr ⟨h, rfl⟩)]
  · unfold cliTransferDecision
    rw [if_pos (Or.inl rfl)]
  · have hc : ¬ ((false : Bool) = true ∨ (MAX_FILE_SIZE_MB < size_mb ∧ (true : Bool) = false)) := by
      rintro (h1 | ⟨_, h2⟩)
      · exact Bool.false_ne_true h1
      · exact Bool.noConfusion h2
    unfold cliTransferDecision
    rw [if_neg hc]

/-- Claim C4 witness: concrete sizes on both sides of each threshold and both
CLI overrides. -/
theorem transfer_decision_pure_threshold_policy_witness :
    webTransferDecision 5 = Transfer.inline
    ∧ webTransferDecision 150 = Transfer.upload
    ∧ cliTransferDecision false false 150 = Transfer.upload
    ∧ cliTransferDecision true false 5 = Transfer.upload
    ∧ cliTransferDecision false true 150 = Transfer.inline :=
  ⟨(transfer_decision_pure_threshold_policy 5).1.1 (by norm_num [WEB_INLINE_LIMIT_MB]),
   (transfer_decision_pure_threshold_policy 150).1.2 (by norm_num [WEB_INLINE_LIMIT_MB]),
   (transfer_decision_pure_threshold_policy 150).2.1.2 (by norm_num [MAX_FILE_SIZE_MB]),
   (transfer_decision_pure_threshold_policy 5).2.2.1 false,
   (transfer_decision_pure_threshold_policy 150).2.2.2⟩

/-- Claim C5 evaluation at the failing input: a chunk arriving after connect
but before start_session is buffered in pending_audio, yet after
handle_start_session the worker queue is empty and the pending buffer is
empty - the chunk was discarded by the dict update resetting pending_audio
before the flush loop ran, so it is replayed zero times, not exactly once. -/
theorem pre_start_audio_chunk_is_discarded :
    (handle_audio_data connectSession 7).pendingAudio = [7]
    ∧ (handle_start_session (handle_audio_data connectSession 7)).audioQueue = []
    ∧ (handle_start_session (handle_audio_data connectSession 7)).pendingAudio = [] :=
  ⟨rfl, rfl, rfl⟩

/-- Claim C6: for every input text that is empty or consists only of
whitespace, the translation adapter returns the empty string and makes no
call to the external generative API, whatever the API would have answered. -/
theorem translate_short_circuits_on_whitespace (api : String → Except String String)
    (text target_language : String) (h : ∀ c ∈ text.data, pyIsSpace c = true) :
    GeminiTranslator_translate api text target_language
      = { result := "", apiCalled := false } := by
  have hs : pyStrip text = "" := pyStrip_of_all_space h
  simp [GeminiTranslator_translate, hs]

/-- Claim C6 witness: a concrete whitespace-only input with an API oracle
that would have answered, yet is not called. -/
theorem translate_short_circuits_on_whitespace_witness :
    GeminiTranslator_translate (fun _ => Except.ok "hola") " \t " "Spanish"
      = { result := "", apiCalled := false } :=
  translate_short_circuits_on_whitespace (fun _ => Except.ok "hola") " \t " "Spanish"
    (by decide)

/-- Claim C7: for every session, translation function and sequence of
recognition results, the accumulated originalText and translatedText are
append-only - the prior content survives as an explicit prefix - and,
starting from the fresh state handle_start_session produces, they end up
containing exactly the finalized segments (respectively their translations),
each exactly once, each followed by one space, in arrival order. -/
theorem session_texts_append_only_in_order :
    ∀ (tr : String → String) (s : ChirpSession) (results : List RecResult),
      ((streaming_transcribe tr s results).originalText
          = s.originalText ++ concatSegs ((finalTranscripts results).map (fun t => t ++ " "))
        ∧ (streaming_transcribe tr s results).translatedText
          = s.translatedText ++ concatSegs ((finalTranscripts results).map (fun t => tr t ++ " ")))
      ∧ ((streaming_transcribe tr (handle_start_session s) results).originalText
          = concatSegs ((finalTranscripts results).map (fun t => t ++ " "))
        ∧ (streaming_transcribe tr (handle_start_session s) results).translatedText
          = concatSegs ((finalTranscripts results).map (fun t => tr t ++ " "))) := by
  intro tr s results
  refine ⟨streaming_transcribe_texts tr results s, ?_, ?_⟩
  · rcases streaming_transcribe_texts tr results (handle_start_session s) with ⟨ho, _⟩
    rw [ho]
    have hempty : (handle_start_session s).originalText = "" := rfl
    rw [hempty, String.empty_append]
  · rcases streaming_transcribe_texts tr results (handle_start_session s) with ⟨_, ht⟩
    rw [ht]
    have hempty : (handle_start_session s).translatedText = "" := rfl
    rw [hempty, String.empty_append]

/-- Claim C8 counterexample: when the response has no usage_metadata
attribute (hasattr is false), the recorded output token count is 0, not the
response text length divided by four - for a response text of 8 characters
the claim predicts 2 but the code records 0. -/
theorem output_tokens_not_estimated_when_metadata_absent :
    ¬ (recordedOutputTokens UsageMeta.absent 8 = 8 / 4) := by
  decide

/-- Claim C8 (amended): the recorded output token count is taken from the
usage metadata's candidates_token_count when the metadata attribute is
present; when the attribute is absent the count is recorded as 0; the
character-length-divided-by-four estimate is used only when reading the
metadata raises an exception.  The same recording feeds the usage records of
both the transcription call and the summarization call. -/
theorem output_token_recording_policy :
    ∀ (t len : Nat) (meta : UsageMeta),
      recordedOutputTokens (UsageMeta.present t) len = t
      ∧ recordedOutputTokens UsageMeta.absent len = 0
      ∧ recordedOutputTokens UsageMeta.raises len = len / 4
      ∧ (transcribe_last_usage DEFAULT_MODEL 0 meta len 0).output_tokens
          = recordedOutputTokens meta len
      ∧ (summarize_usage DEFAULT_MODEL 0 meta len).output_tokens
          = recordedOutputTokens meta len := by
  intro t len meta
  exact ⟨rfl, rfl, rfl, rfl, rfl⟩

/-- Claim C9: for every model in the price table and all token counts and
non-negative audio durations, the estimated total cost equals
input_tokens/1000 times the input price plus output_tokens/1000 times the
output price plus audio_seconds times the audio price of that model's static
entry, and the total a web request reports is the transcription call's
estimate plus, when a summary was requested, the summary call's estimate. -/
theorem cost_estimate_formula_and_request_sum :
    (∀ (model_name : String) (p : ModelPricing),
        AVAILABLE_MODELS model_name = some p →
        ∀ (input_tokens output_tokens : Nat) (secs : ℚ), 0 ≤ secs →
          (estimate_cost model_name input_tokens output_tokens secs).total_cost
            = ((input_tokens : ℚ) / 1000) * p.price_input_per_1k
              + ((output_tokens : ℚ) / 1000) * p.price_output_per_1k
              + secs * p.price_audio_per_second)
    ∧ (∀ u su : CostRecord,
        transcribe_request_total_cost u (some su) = u.total_cost + su.total_cost)
    ∧ (∀ u : CostRecord, transcribe_request_total_cost u none = u.total_cost) := by
  refine ⟨?_, ?_, ?_⟩
  · intro model_name p hp input_tokens output_tokens secs _
    simp [estimate_cost, hp]
  · intro u su
    simp [transcribe_request_total_cost]
  · intro u
    simp [transcribe_request_total_cost]

/-- Claim C9 witness: the formula evaluated for the gemini-2.5-pro entry at
1000 input tokens, 2000 output tokens and 60 audio seconds. -/
theorem cost_estimate_formula_and_request_sum_witness :
    (estimate_cost "gemini-2.5-pro" 1000 2000 60).total_cost
      = ((1000 : ℚ) / 1000) * gemini25ProPricing.price_input_per_1k
        + ((2000 : ℚ) / 1000) * gemini25ProPricing.price_output_per_1k
        + (60 : ℚ) * gemini25ProPricing.price_audio_per_second :=
  cost_estimate_formula_and_request_sum.1 "gemini-2.5-pro" gemini25ProPricing
    (by unfold AVAILABLE_MODELS; rw [if_neg (by decide), if_pos rfl]) 1000 2000 60
    (by norm_num)

/-- Claim C10: a transcription request naming a model outside the fixed
allow-list is not rejected - the web handler and the transcriber constructor
silently substitute DEFAULT_MODEL and proceed, so the request's model_used is
the default model, which is itself in the allow-list. -/
theorem unknown_model_silently_substituted (m : String)
    (h : AVAILABLE_MODELS m = none) :
    transcribe_model_used (some m) = DEFAULT_MODEL
    ∧ transcriberInitModel m = DEFAULT_MODEL
    ∧ (AVAILABLE_MODELS (transcribe_model_used (some m))).isSome = true := by
  have h1 : (AVAILABLE_MODELS m).isSome = false := by rw [h]; rfl
  refine ⟨?_, ?_, ?_⟩
  · simp [transcribe_model_used, h1]
  · simp [transcriberInitModel, h1]
  · simp [transcribe_model_used, h1]
    decide

/-- Claim C10 witness: a concrete unknown model name is substituted by the
default model in both places and the substituted name is allow-listed. -/
theorem unknown_model_silently_substituted_witness :
    transcribe_model_used (some "gpt-4o") = DEFAULT_MODEL
    ∧ transcriberInitModel "gpt-4o" = DEFAULT_MODEL
    ∧ (AVAILABLE_MODELS (transcribe_model_used (some "gpt-4o"))).isSome = true :=
  unknown_model_silently_substituted "gpt-4o" (by decide)
